import Mathlib

/-!
Shallow embedding of the trip-planner workflow core
(`backend/app/agents/{state,graph,nodes/*}.py`,
`backend/app/services/{cache_service,trip_planning_service}.py`,
`backend/app/api/routes/trip_v2.py`) together with theorems settling the
specification claims about it.

Conventions of the embedding:
* Python dictionaries keyed by step name become association lists
  (`List (String × β)`) with `dlookup` for `d.get(k)` and `dinsert` for
  `{**d, k: v}`.
* Code that may raise returns `PyOutcome α`; `PyOutcome.exn msg` models a
  raised exception carrying its text.
* Awaited external collaborators (map provider, text-generation engine) are
  oracle parameters: the provider outcome of one call is passed in as a
  `PyOutcome` value, mirroring exactly what the surrounding code does with it.
* `time.time()`-derived quantities (elapsed milliseconds, wall-clock now) are
  parameters, since every branch of the source merely records them.
* `pydantic` models from `app/models/schemas.py` (not part of the sources at
  hand; only their constructor calls are) are modelled with the fields those
  calls populate; fields a call omits are `Option`-valued and set to `none`.
-/

namespace Trip

/-- Outcome of running a piece of Python code: a value or a raised exception
(identified by its message text). -/
inductive PyOutcome (α : Type) where
  | ok (a : α)
  | exn (msg : String)
deriving DecidableEq

/-- `d.get(k)` on a Python dict modelled as an association list. -/
def dlookup {β : Type} : List (String × β) → String → Option β
  | [], _ => none
  | (k', v) :: t, k => if k' = k then some v else dlookup t k

/-- Remove every binding of key `k` (helper for `dinsert`). -/
def derase {β : Type} : List (String × β) → String → List (String × β)
  | [], _ => []
  | (k', v) :: t, k => if k' = k then derase t k else (k', v) :: derase t k

/-- `{**d, k: v}`: the dict equal to `d` except that `k` now maps to `v`. -/
def dinsert {β : Type} (d : List (String × β)) (k : String) (v : β) :
    List (String × β) :=
  (k, v) :: derase d k

/-! ### Data model (`app/models/schemas.py` constructor calls) -/

/-- A coordinate pair.  The Python code stores floats such as `116.4`; the
claims never compute with them, so rationals model them exactly. -/
structure Location where
  longitude : ℚ
  latitude : ℚ
deriving DecidableEq

/-- Point-of-interest result as built by `attraction_node` and
`_parse_attraction`; fields a constructor call omits are `none`. -/
structure Attraction where
  name : String
  address : String
  location : Location
  visit_duration : Int
  description : String
  ticket_price : Option Int
  category : Option String
  poi_id : Option String
deriving DecidableEq

/-- One day of forecast as built by `weather_node`. -/
structure WeatherInfo where
  date : String
  day_weather : String
  night_weather : String
  day_temp : Int
  night_temp : Int
  wind_direction : String
  wind_power : String
deriving DecidableEq

/-- Lodging option as built by `hotel_node`, `_parse_hotel` and
`create_fallback_plan`. -/
structure Hotel where
  name : String
  address : String
  location : Option Location
  hotel_type : Option String
  price_range : Option String
  rating : Option String
  distance : Option String
  estimated_cost : Option Int
deriving DecidableEq

/-- A meal entry (`type` is the breakfast/lunch/dinner tag). -/
structure Meal where
  meal_type : String
  name : String
  description : Option String
  estimated_cost : Int
deriving DecidableEq

/-- Budget with four category subtotals and the grand total. -/
structure Budget where
  total_attractions : Int
  total_hotels : Int
  total_meals : Int
  total_transportation : Int
  total : Int
deriving DecidableEq

/-- One day of the produced itinerary. -/
structure DayPlan where
  date : String
  day_index : Int
  description : String
  transportation : String
  accommodation : String
  hotel : Hotel
  attractions : List Attraction
  meals : List Meal
deriving DecidableEq

/-- The final itinerary (`TripPlan` in the source). -/
structure TripPlan where
  city : String
  start_date : String
  end_date : String
  days : List DayPlan
  weather_info : List WeatherInfo
  overall_suggestions : String
  budget : Budget
  execution_time_ms : Option Int
deriving DecidableEq

/-- The immutable trip request (`TripRequest`).  `travel_days` is a Python
int, hence `Int`. -/
structure TripRequest where
  city : String
  start_date : String
  end_date : String
  travel_days : Int
  transportation : String
  accommodation : String
  preferences : List String
deriving DecidableEq

/-! ### Python string primitives

`str.split(sep)`, `sub in s` and `str.strip()` are modelled over the
character list of the string, with structural recursion so that every
definition evaluates inside the kernel. -/

/-- Does `sub` occur at the front of `l`? -/
def leadMatch : List Char → List Char → Bool
  | [], _ => true
  | _ :: _, [] => false
  | a :: s, b :: t => a == b && leadMatch s t

/-- Python `sub in s` for non-empty `sub`: `sub` occurs contiguously in `l`. -/
def hasSub : List Char → List Char → Bool
  | [], sub => sub.isEmpty
  | c :: t, sub => leadMatch sub (c :: t) || hasSub t sub

/-- Python `sub in s` (the source only tests non-empty literals). -/
def str_contains (s sub : String) : Bool :=
  hasSub s.data sub.data

/-- Fuelled scanner behind `py_split`; fuel bounds the number of steps and
never runs out when initialised to `l.length + 1`. -/
def splitOnFuel (sep : List Char) : Nat → List Char → List Char → List (List Char)
  | 0, l, acc => [acc.reverse ++ l]
  | _ + 1, [], acc => [acc.reverse]
  | n + 1, c :: t, acc =>
    if leadMatch sep (c :: t) then
      acc.reverse :: splitOnFuel sep n (t.drop (sep.length - 1)) []
    else
      splitOnFuel sep n t (c :: acc)

/-- Python `s.split(sep)` for non-empty `sep`: the pieces of `s` between
leftmost non-overlapping occurrences of `sep`. -/
def py_split (s sep : String) : List String :=
  (splitOnFuel sep.data (s.data.length + 1) s.data []).map String.mk

/-- Whitespace for Python `str.strip()`. -/
def isSpaceChar (c : Char) : Bool :=
  c == ' ' || c == '\t' || c == '\n' || c == '\r'

/-- Python `s.strip()`. -/
def py_strip (s : String) : String :=
  String.mk ((((s.data.dropWhile isSpaceChar).reverse).dropWhile isSpaceChar).reverse)

/-- Digits of `l` as a number (`int(s)` on an all-digit string). -/
def digitsToNat (l : List Char) : Nat :=
  l.foldl (fun acc c => acc * 10 + (c.toNat - '0'.toNat)) 0

/-! ### Gregorian dates (`datetime.strptime`/`strftime`/`timedelta`)

`create_fallback_plan` parses `start_date` with format `%Y-%m-%d`, adds
`timedelta(days=i)` and formats the result back.  Dates are modelled as day
numbers (days since 1970-01-01) via the standard civil-calendar conversion. -/

def is_leap (y : Int) : Bool :=
  (y % 4 == 0 && y % 100 != 0) || y % 400 == 0

def days_in_month (y m : Int) : Int :=
  if m = 2 then (if is_leap y then 29 else 28)
  else if m = 4 ∨ m = 6 ∨ m = 9 ∨ m = 11 then 30
  else 31

/-- Days since 1970-01-01 of the civil date `y-m-d` (the Hinnant algorithm). -/
def days_from_civil (y m d : Int) : Int :=
  let y' := if m ≤ 2 then y - 1 else y
  let era := (if 0 ≤ y' then y' else y' - 399) / 400
  let yoe := y' - era * 400
  let mp := (m + 9) % 12
  let doy := (153 * mp + 2) / 5 + d - 1
  let doe := yoe * 365 + yoe / 4 - yoe / 100 + doy
  era * 146097 + doe - 719468

/-- Civil date `(y, m, d)` of a day number (inverse of `days_from_civil`). -/
def civil_from_days (z0 : Int) : Int × Int × Int :=
  let z := z0 + 719468
  let era := (if 0 ≤ z then z else z - 146096) / 146097
  let doe := z - era * 146097
  let yoe := (doe - doe / 1460 + doe / 36524 - doe / 146096) / 365
  let y := yoe + era * 400
  let doy := doe - (365 * yoe + yoe / 4 - yoe / 100)
  let mp := (5 * doy + 2) / 153
  let d := doy - (153 * mp + 2) / 5 + 1
  let m := if mp < 10 then mp + 3 else mp - 9
  (if m ≤ 2 then y + 1 else y, m, d)

/-- `datetime.strptime(s, "%Y-%m-%d")`: `none` models the `ValueError` it
raises on malformed input; otherwise the day number of the parsed date. -/
def parse_ymd (s : String) : Option Int :=
  match py_split s "-" with
  | [ys, ms, ds] =>
    if ys.data.length = 4 ∧ ms.data.length = 2 ∧ ds.data.length = 2
        ∧ ys.data.all Char.isDigit ∧ ms.data.all Char.isDigit
        ∧ ds.data.all Char.isDigit then
      let y : Int := digitsToNat ys.data
      let m : Int := digitsToNat ms.data
      let d : Int := digitsToNat ds.data
      if 1 ≤ m ∧ m ≤ 12 ∧ 1 ≤ d ∧ d ≤ days_in_month y m then
        some (days_from_civil y m d)
      else none
    else none
  | _ => none

def pad2 (n : Int) : String :=
  if n < 10 then "0" ++ toString n else toString n

/-- `date.strftime("%Y-%m-%d")`. -/
def format_ymd (z : Int) : String :=
  let c := civil_from_days z
  toString c.1 ++ "-" ++ pad2 c.2.1 ++ "-" ++ pad2 c.2.2

/-! ### Cache service, in-memory path (`app/services/cache_service.py`)

The deployment without a reachable Redis is modelled: `CacheService.get`
falls through to `self._memory_cache` and `CacheService.set` stores into it.
Both methods catch internally and never raise.  Step keys live in disjoint
namespaces (`attractions:`/`weather:`/`hotels:`), so the cache of each step is
modelled with its own value type. -/

/-- One `self._memory_cache[key]` entry: `{"value": ..., "expires": time.time() + ttl}`. -/
structure MemEntry (α : Type) where
  value : α
  expires : Int
deriving DecidableEq

/-- The service state relevant to the memory path: the `_memory_cache` dict
plus the `cache_enabled` setting. -/
structure CacheState (α : Type) where
  entries : List (String × MemEntry α)
  enabled : Bool
deriving DecidableEq

/-- `CacheService.get` on the memory path: returns only the stored `value`
and never consults `expires`; `None` when disabled or absent. -/
def cache_get {α : Type} (c : CacheState α) (key : String) : Option α :=
  if c.enabled then (dlookup c.entries key).map MemEntry.value else none

/-- `CacheService.set` on the memory path at wall-clock `now`: records the
value with `expires = now + ttl` and reports success; a disabled cache
stores nothing and reports `False`. -/
def cache_set {α : Type} (c : CacheState α) (key : String) (v : α)
    (ttl now : Int) : CacheState α × Bool :=
  if c.enabled then
    ({ c with entries := dinsert c.entries key ⟨v, now + ttl⟩ }, true)
  else (c, false)

/-! ### Shared planning state (`app/agents/state.py`) -/

/-- `TripPlanningState`.  `weather` starts as `None` (the initial state sets
it so) while the weather step always stores a list, hence `Option (List _)`.
The `messages`, `retry_count` and `checkpoint_id` fields play no part in any
claim-relevant code path and carry no information here. -/
structure PState where
  request : Option TripRequest
  user_id : Option String
  attractions : List Attraction
  weather : Option (List WeatherInfo)
  hotels : List Hotel
  node_status : List (String × String)
  node_errors : List (String × String)
  trip_plan : Option TripPlan
  error : Option String
  fallback_activated : Bool
  execution_time_ms : Option Int
  trace_id : Option String
  node_timings : List (String × Int)
deriving DecidableEq

/-- `create_initial_state(user_id, request)`. -/
def create_initial_state (user_id : String) (request : TripRequest) : PState :=
  { request := some request
    user_id := some user_id
    attractions := []
    weather := none
    hotels := []
    node_status := []
    node_errors := []
    trip_plan := none
    error := none
    fallback_activated := false
    execution_time_ms := none
    trace_id := none
    node_timings := [] }

/-- `is_all_parallel_nodes_completed(state, nodes)`: true iff every listed
recorded status of every listed node equals `"completed"`. -/
def is_all_parallel_nodes_completed (node_status : List (String × String))
    (nodes : List String) : Bool :=
  nodes.all (fun n => dlookup node_status n == some "completed")

/-- The fan-out step names of the graph (`graph.py` registers these three nodes
before `generate_plan`); the required-step set of the completion gate. -/
def parallel_node_names : List String :=
  ["search_attractions", "query_weather", "search_hotels"]

/-! ### Data-gathering nodes (`attraction_node.py`, `weather_node.py`,
`hotel_node.py`)

Each node is parameterised by its cache state and by the outcome of the one
provider call it would make (tool invocation, `json.loads` and result-model
conversion together: an exception anywhere in that span lands in the
`except` handler of the node).  `elapsed` is the measured running time in milliseconds
and `now` the wall clock seen by `cache.set`.  The returned `Bool` records
whether the provider was invoked. -/

/-- `f"attractions:{request.city}:{keywords}"` with
`keywords = request.preferences[0] if request.preferences else "景点"`. -/
def attractions_cache_key (request : TripRequest) : String :=
  "attractions:" ++ request.city ++ ":" ++ request.preferences.headD "景点"

/-- `f"weather:{request.city}"`. -/
def weather_cache_key (request : TripRequest) : String :=
  "weather:" ++ request.city

/-- `f"hotels:{request.city}:{request.accommodation}"`. -/
def hotels_cache_key (request : TripRequest) : String :=
  "hotels:" ++ request.city ++ ":" ++ request.accommodation

/-- `attraction_node`: cache check (`if cached:` is Python truthiness, so an
empty cached list falls through to the provider), provider call, cache write
with `ttl=7200`, and an `except` handler producing `failed` plus an empty
list.  `state["request"]` is read before the `try` block. -/
def attraction_node (cache : CacheState (List Attraction))
    (provider : PyOutcome (List Attraction)) (state : PState)
    (elapsed now : Int) :
    PyOutcome (PState × CacheState (List Attraction) × Bool) :=
  match state.request with
  | none => .exn "KeyError: request"
  | some request =>
    let key := attractions_cache_key request
    let missPath : PyOutcome (PState × CacheState (List Attraction) × Bool) :=
      match provider with
      | .ok attractions =>
        .ok ({ state with
                attractions := attractions
                node_status :=
                  dinsert state.node_status "search_attractions" "completed"
                node_timings :=
                  dinsert state.node_timings "search_attractions" elapsed },
             (cache_set cache key attractions 7200 now).1, true)
      | .exn e =>
        .ok ({ state with
                attractions := []
                node_status :=
                  dinsert state.node_status "search_attractions" "failed"
                node_errors := dinsert state.node_errors "search_attractions" e
                node_timings :=
                  dinsert state.node_timings "search_attractions" elapsed },
             cache, true)
    match cache_get cache key with
    | some cached =>
      if !cached.isEmpty then
        .ok ({ state with
                attractions := cached
                node_status :=
                  dinsert state.node_status "search_attractions" "completed"
                node_timings :=
                  dinsert state.node_timings "search_attractions" elapsed },
             cache, false)
      else missPath
    | none => missPath

/-- `weather_node`: same shape with `ttl=1800` and the `weather` field
(`some []` on failure — the empty-but-present list of the spec). -/
def weather_node (cache : CacheState (List WeatherInfo))
    (provider : PyOutcome (List WeatherInfo)) (state : PState)
    (elapsed now : Int) :
    PyOutcome (PState × CacheState (List WeatherInfo) × Bool) :=
  match state.request with
  | none => .exn "KeyError: request"
  | some request =>
    let key := weather_cache_key request
    let missPath : PyOutcome (PState × CacheState (List WeatherInfo) × Bool) :=
      match provider with
      | .ok weather_list =>
        .ok ({ state with
                weather := some weather_list
                node_status :=
                  dinsert state.node_status "query_weather" "completed"
                node_timings :=
                  dinsert state.node_timings "query_weather" elapsed },
             (cache_set cache key weather_list 1800 now).1, true)
      | .exn e =>
        .ok ({ state with
                weather := some []
                node_status := dinsert state.node_status "query_weather" "failed"
                node_errors := dinsert state.node_errors "query_weather" e
                node_timings :=
                  dinsert state.node_timings "query_weather" elapsed },
             cache, true)
    match cache_get cache key with
    | some cached =>
      if !cached.isEmpty then
        .ok ({ state with
                weather := some cached
                node_status :=
                  dinsert state.node_status "query_weather" "completed"
                node_timings :=
                  dinsert state.node_timings "query_weather" elapsed },
             cache, false)
      else missPath
    | none => missPath

/-- `hotel_node`: same shape with `ttl=7200` and the `hotels` field. -/
def hotel_node (cache : CacheState (List Hotel))
    (provider : PyOutcome (List Hotel)) (state : PState)
    (elapsed now : Int) :
    PyOutcome (PState × CacheState (List Hotel) × Bool) :=
  match state.request with
  | none => .exn "KeyError: request"
  | some request =>
    let key := hotels_cache_key request
    let missPath : PyOutcome (PState × CacheState (List Hotel) × Bool) :=
      match provider with
      | .ok hotels =>
        .ok ({ state with
                hotels := hotels
                node_status :=
                  dinsert state.node_status "search_hotels" "completed"
                node_timings :=
                  dinsert state.node_timings "search_hotels" elapsed },
             (cache_set cache key hotels 7200 now).1, true)
      | .exn e =>
        .ok ({ state with
                hotels := []
                node_status := dinsert state.node_status "search_hotels" "failed"
                node_errors := dinsert state.node_errors "search_hotels" e
                node_timings :=
                  dinsert state.node_timings "search_hotels" elapsed },
             cache, true)
    match cache_get cache key with
    | some cached =>
      if !cached.isEmpty then
        .ok ({ state with
                hotels := cached
                node_status :=
                  dinsert state.node_status "search_hotels" "completed"
                node_timings :=
                  dinsert state.node_timings "search_hotels" elapsed },
             cache, false)
      else missPath
    | none => missPath

/-! ### Deterministic fallback generator (`create_fallback_plan`) -/

/-- One fallback day plan (loop body of `create_fallback_plan`). -/
def fallback_day (request : TripRequest) (startDay : Int) (i : Nat) : DayPlan :=
  { date := format_ymd (startDay + i)
    day_index := (i : Int)
    description := "第" ++ toString (i + 1) ++ "天：探索" ++ request.city
    transportation := request.transportation
    accommodation := request.accommodation
    hotel := { name := request.city ++ "酒店推荐", address := request.city
               location := none, hotel_type := none, price_range := none
               rating := none, distance := none, estimated_cost := none }
    attractions := (List.range 2).map (fun j =>
      { name := request.city ++ "热门景点" ++ toString (j + 1)
        address := request.city
        location := { longitude := 582 / 5, latitude := 399 / 10 }
        visit_duration := 120
        description := request.city ++ "的著名景点"
        ticket_price := some 50
        category := none
        poi_id := none })
    meals := [
      { meal_type := "breakfast", name := "当地特色早餐", description := none
        estimated_cost := 30 },
      { meal_type := "lunch", name := "当地特色午餐", description := none
        estimated_cost := 60 },
      { meal_type := "dinner", name := "当地特色晚餐", description := none
        estimated_cost := 100 } ] }

/-- `create_fallback_plan(request)`: a day plan per `range(travel_days)`
plus the aggregated budget.  `none` models the `ValueError` that
`strptime` raises on a malformed `start_date`. -/
def create_fallback_plan (request : TripRequest) : Option TripPlan :=
  match parse_ymd request.start_date with
  | none => none
  | some startDay =>
    let days :=
      (List.range request.travel_days.toNat).map (fallback_day request startDay)
    let total_attractions : Int :=
      (days.map (fun d => (d.attractions.length : Int) * 50)).sum
    let total_meals : Int :=
      (days.map (fun d => (d.meals.map Meal.estimated_cost).sum)).sum
    let total_hotels : Int := 400 * request.travel_days
    some
      { city := request.city
        start_date := request.start_date
        end_date := request.end_date
        days := days
        weather_info := []
        overall_suggestions :=
          "这是为您准备的" ++ request.city ++ toString request.travel_days
            ++ "日游备用行程。建议提前查询各景点开放时间和预订酒店。"
        budget := { total_attractions := total_attractions
                    total_hotels := total_hotels
                    total_meals := total_meals
                    total_transportation := 100
                    total := total_attractions + total_hotels + total_meals + 100 }
        execution_time_ms := none }

/-! ### Synthesis response parsing (`parse_planner_response` and helpers)

`json.loads` on the extracted payload is an oracle parameter
`jloads : String → Option RawPlan`; the `Raw*` structures model the parsed
JSON dictionaries field by field (a `none` field models an absent key, read
back with `.get(key, default)`). -/

structure RawHotel where
  name : Option String
  address : Option String
  estimated_cost : Option Int
deriving DecidableEq

structure RawAttraction where
  name : Option String
  address : Option String
  visit_duration : Option Int
  description : Option String
  ticket_price : Option Int
deriving DecidableEq

structure RawMeal where
  meal_type : Option String
  name : Option String
  description : Option String
  estimated_cost : Option Int
deriving DecidableEq

structure RawDay where
  date : Option String
  day_index : Option Int
  description : Option String
  transportation : Option String
  accommodation : Option String
  hotel : Option RawHotel
  attractions : Option (List RawAttraction)
  meals : Option (List RawMeal)
deriving DecidableEq

structure RawBudget where
  total_attractions : Option Int
  total_hotels : Option Int
  total_meals : Option Int
  total_transportation : Option Int
  total : Option Int
deriving DecidableEq

structure RawPlan where
  city : Option String
  days : Option (List RawDay)
  budget : Option RawBudget
  overall_suggestions : Option String
deriving DecidableEq

/-- `_parse_hotel`. -/
def parse_hotel (data : RawHotel) : Hotel :=
  { name := data.name.getD "", address := data.address.getD ""
    location := none, hotel_type := none, price_range := none
    rating := none, distance := none
    estimated_cost := some (data.estimated_cost.getD 0) }

/-- `_parse_attraction` (missing duration defaults to 120, location to the
zero coordinate). -/
def parse_attraction (data : RawAttraction) : Attraction :=
  { name := data.name.getD "", address := data.address.getD ""
    location := { longitude := 0, latitude := 0 }
    visit_duration := data.visit_duration.getD 120
    description := data.description.getD ""
    ticket_price := some (data.ticket_price.getD 0)
    category := none, poi_id := none }

/-- `_parse_meal`. -/
def parse_meal (data : RawMeal) : Meal :=
  { meal_type := data.meal_type.getD "lunch", name := data.name.getD ""
    description := some (data.description.getD "")
    estimated_cost := data.estimated_cost.getD 0 }

/-- JSON payload extraction of `parse_planner_response` (lines 243-248):
a fenced `json` block first, then any fenced block, then the raw text. -/
def extract_json_str (content : String) : String :=
  if str_contains content "```json" then
    py_strip ((py_split ((py_split content "```json").getD 1 "") "```").getD 0 "")
  else if str_contains content "```" then
    py_strip ((py_split ((py_split content "```").getD 1 "") "```").getD 0 "")
  else content

/-- `days`/`budget` assembly of `parse_planner_response` for one day dict. -/
def build_day (request : TripRequest) (day_data : RawDay) : DayPlan :=
  { date := day_data.date.getD ""
    day_index := day_data.day_index.getD 0
    description := day_data.description.getD ""
    transportation := day_data.transportation.getD request.transportation
    accommodation := day_data.accommodation.getD request.accommodation
    hotel := parse_hotel (day_data.hotel.getD ⟨none, none, none⟩)
    attractions := (day_data.attractions.getD []).map parse_attraction
    meals := (day_data.meals.getD []).map parse_meal }

/-- `TripPlan` assembly of `parse_planner_response` after `json.loads`. -/
def build_trip_plan (request : TripRequest) (data : RawPlan) : TripPlan :=
  let bd := data.budget.getD ⟨none, none, none, none, none⟩
  { city := data.city.getD request.city
    start_date := request.start_date
    end_date := request.end_date
    days := (data.days.getD []).map (build_day request)
    weather_info := []
    overall_suggestions := data.overall_suggestions.getD ""
    budget := { total_attractions := bd.total_attractions.getD 0
                total_hotels := bd.total_hotels.getD 0
                total_meals := bd.total_meals.getD 0
                total_transportation := bd.total_transportation.getD 0
                total := bd.total.getD 0 }
    execution_time_ms := none }

/-- `parse_planner_response(content, request)`; `none` models the
`json.JSONDecodeError` raised when the extracted payload is not JSON. -/
def parse_planner_response (jloads : String → Option RawPlan)
    (content : String) (request : TripRequest) : Option TripPlan :=
  (jloads (extract_json_str content)).map (build_trip_plan request)

/-! ### Synthesis step (`planner_node`) -/

/-- Python `l[:n]` for an `int` bound (negative bounds count from the end). -/
def pySliceTo {α : Type} (l : List α) (n : Int) : List α :=
  if 0 ≤ n then l.take n.toNat else l.take ((l.length : Int) + n).toNat

/-- `build_planner_input`: the user-content string handed to the engine
(up to 15 attractions, `travel_days` weather rows, 10 hotels). -/
def build_planner_input (request : TripRequest) (attractions : List Attraction)
    (weather : Option (List WeatherInfo)) (hotels : List Hotel) : String :=
  let base := [
    "目的地: " ++ request.city,
    "旅行日期: " ++ request.start_date ++ " 至 " ++ request.end_date,
    "天数: " ++ toString request.travel_days,
    "交通方式: " ++ request.transportation,
    "住宿偏好: " ++ request.accommodation,
    "旅行偏好: " ++ (if request.preferences.isEmpty then "无"
                     else String.intercalate ", " request.preferences),
    "",
    "景点信息:" ]
  let attrLines := (attractions.take 15).enum.map (fun p =>
    toString (p.1 + 1) ++ ". " ++ p.2.name ++ " - " ++ p.2.address
      ++ " (游览约" ++ toString p.2.visit_duration ++ "分钟)")
  let weatherLines :=
    match weather with
    | some l =>
      if !l.isEmpty then
        ["", "天气信息:"] ++ (pySliceTo l request.travel_days).map (fun w =>
          w.date ++ ": 白天" ++ w.day_weather ++ " " ++ toString w.day_temp
            ++ "°C, 夜间" ++ w.night_weather ++ " " ++ toString w.night_temp ++ "°C")
      else []
    | none => []
  let hotelLines :=
    if !hotels.isEmpty then
      ["", "可选酒店:"] ++ (hotels.take 10).enum.map (fun p =>
        toString (p.1 + 1) ++ ". " ++ p.2.name ++ " - " ++ p.2.address)
    else []
  String.intercalate "\n" (base ++ attrLines ++ weatherLines ++ hotelLines)

/-- Number of positional arguments in the call
`is_all_parallel_nodes_completed(state)` at `planner_node.py` line 108. -/
def planner_gate_call_args : Nat := 1

/-- Number of required positional parameters of
`is_all_parallel_nodes_completed(state, nodes)` in `state.py`. -/
def planner_gate_required_params : Nat := 2

def gate_arity_error : String :=
  "TypeError: is_all_parallel_nodes_completed missing 1 required positional argument: nodes"

def strptime_error : String :=
  "ValueError: time data does not match format %Y-%m-%d"

/-- The `try` block of `planner_node` (lines 119-175): empty attractions go
straight to the deterministic fallback without touching the engine;
otherwise the engine is invoked and its response parsed.  The `Bool` is
true iff the engine was invoked. -/
def planner_try (jloads : String → Option RawPlan)
    (llm : String → PyOutcome String) (state : PState) (request : TripRequest)
    (elapsed : Int) : PyOutcome PState × Bool :=
  if state.attractions.isEmpty then
    match create_fallback_plan request with
    | none => (.exn strptime_error, false)
    | some tp =>
      (.ok { state with
              trip_plan := some tp
              fallback_activated := true
              node_status := dinsert state.node_status "generate_plan" "completed"
              node_timings := dinsert state.node_timings "generate_plan" elapsed
              execution_time_ms := some elapsed }, false)
  else
    match llm (build_planner_input request state.attractions state.weather
        state.hotels) with
    | .exn e => (.exn e, true)
    | .ok content =>
      match parse_planner_response jloads content request with
      | none => (.exn "json.JSONDecodeError: Expecting value", true)
      | some tp =>
        (.ok { state with
                trip_plan := some tp
                node_status := dinsert state.node_status "generate_plan" "completed"
                node_timings := dinsert state.node_timings "generate_plan" elapsed
                execution_time_ms := some elapsed }, true)

/-- The `except` handler of `planner_node` (lines 177-199): any error inside
the `try` block is converted into the fallback plan with
`fallback_activated=True` — unless `create_fallback_plan` itself raises. -/
def planner_except (state : PState) (request : TripRequest) (e : String)
    (elapsed : Int) : PyOutcome PState :=
  match create_fallback_plan request with
  | none => .exn strptime_error
  | some tp =>
    .ok { state with
           trip_plan := some tp
           fallback_activated := true
           error := some e
           node_status := dinsert state.node_status "generate_plan" "completed"
           node_errors := dinsert state.node_errors "generate_plan" e
           node_timings := dinsert state.node_timings "generate_plan" elapsed
           execution_time_ms := some elapsed }

/-- `planner_node`.  Before the `try` block it evaluates
`is_all_parallel_nodes_completed(state)` — one positional argument against a
signature with two required parameters, which in Python raises `TypeError`
out of the node.  The branch modelling a legal call (gate check against the
three fan-out steps, then pending / fallback / engine paths) is transcribed
after the arity test, as the call site evidently intended. -/
def planner_node (jloads : String → Option RawPlan)
    (llm : String → PyOutcome String) (state : PState) (elapsed : Int) :
    PyOutcome PState × Bool :=
  match state.request with
  | none => (.exn "KeyError: request", false)
  | some request =>
    if planner_gate_call_args < planner_gate_required_params then
      (.exn gate_arity_error, false)
    else if !(is_all_parallel_nodes_completed state.node_status
        parallel_node_names) then
      (.ok { state with
              node_status := dinsert state.node_status "generate_plan" "pending" },
       false)
    else
      match planner_try jloads llm state request elapsed with
      | (.ok s', b) => (.ok s', b)
      | (.exn e, b) => (planner_except state request e elapsed, b)

/-! ### Graph executor and service (`graph.py`,
`trip_planning_service.py`, `api/routes/trip_v2.py`) -/

/-- All oracle inputs of one planning run: per-step cache states, provider
outcomes, timing samples, the engine and the JSON decoder. -/
structure GraphEnv where
  cacheA : CacheState (List Attraction)
  provA : PyOutcome (List Attraction)
  tA : Int
  nowA : Int
  cacheW : CacheState (List WeatherInfo)
  provW : PyOutcome (List WeatherInfo)
  tW : Int
  nowW : Int
  cacheH : CacheState (List Hotel)
  provH : PyOutcome (List Hotel)
  tH : Int
  nowH : Int
  jloads : String → Option RawPlan
  llm : String → PyOutcome String
  tP : Int
  execMs : Int

/-- The data-gathering stage of the graph: attractions first, then the
weather/hotel fan-out (their merges touch disjoint fields and commute; they
are composed here in a fixed order). -/
def run_gather (g : GraphEnv) (s0 : PState) : PyOutcome PState :=
  match attraction_node g.cacheA g.provA s0 g.tA g.nowA with
  | .exn e => .exn e
  | .ok (s1, _, _) =>
    match weather_node g.cacheW g.provW s1 g.tW g.nowW with
    | .exn e => .exn e
    | .ok (s2, _, _) =>
      match hotel_node g.cacheH g.provH s2 g.tH g.nowH with
      | .exn e => .exn e
      | .ok (s3, _, _) => .ok s3

/-- The compiled graph of `create_trip_planning_graph`: the gathering stage
followed by `generate_plan`; an exception escaping a node aborts the run. -/
def run_graph (g : GraphEnv) (s0 : PState) : PyOutcome PState :=
  match run_gather g s0 with
  | .exn e => .exn e
  | .ok s3 =>
    match planner_node g.jloads g.llm s3 g.tP with
    | (.exn e, _) => .exn e
    | (.ok s4, _) => .ok s4

/-- Is a Python keyword call legal: every keyword names a parameter and every
(required) parameter receives a keyword. -/
def kwcall_ok (kwargs params : List String) : Bool :=
  kwargs.all (fun k => params.contains k) && params.all (fun p => kwargs.contains p)

/-- Parameters of `create_initial_state(user_id, request)` in `state.py`. -/
def create_initial_state_params : List String := ["user_id", "request"]

/-- Keywords in the call `create_initial_state(request=..., trace_id=...,
user_id=...)` at `trip_planning_service.py` lines 55-59. -/
def plan_trip_initial_state_kwargs : List String := ["request", "trace_id", "user_id"]

def init_state_kw_error : String :=
  "TypeError: create_initial_state got an unexpected keyword argument trace_id"

/-- `TripPlanningService.plan_trip`: builds the initial state, runs the
graph, and re-raises any exception (`Except.error`); a run ending without a
`trip_plan` raises `ValueError`. -/
def plan_trip (g : GraphEnv) (request : TripRequest) (user_id : Option String) :
    Except String TripPlan :=
  if kwcall_ok plan_trip_initial_state_kwargs create_initial_state_params then
    match run_graph g (create_initial_state (user_id.getD "") request) with
    | .exn e => .error e
    | .ok final =>
      match final.trip_plan with
      | none => .error "ValueError: 未能生成旅行计划"
      | some tp => .ok { tp with execution_time_ms := some g.execMs }
  else .error init_state_kw_error

/-- HTTP-level outcome of `POST /trip/plan` in `trip_v2.py`. -/
inductive ApiOutcome where
  | rejected400 (detail : String)
  | error500 (detail : String)
  | ok200 (tp : TripPlan)
deriving DecidableEq

def day_range_error : String := "旅行天数必须在1-30天之间"

/-- The `/trip/plan` route: day-count validation (`ValidationError` caught
into HTTP 400) strictly before the service call; any other exception from
the service becomes the generic HTTP 500. -/
def api_plan_trip (g : GraphEnv) (request : TripRequest) (user_id : String) :
    ApiOutcome :=
  if request.travel_days < 1 || request.travel_days > 30 then
    .rejected400 day_range_error
  else
    match plan_trip g request (some user_id) with
    | .error _ => .error500 "服务器内部错误，请稍后重试"
    | .ok tp => .ok200 tp

/-! ### Observers and concrete instances

Small projections used to state concrete facts about node results, and the
concrete requests/states/environments that instantiate the theorems. -/

/-- Whether a gathering node run invoked its provider. -/
def provider_invoked {α : Type} :
    PyOutcome (PState × CacheState α × Bool) → Option Bool
  | .ok (_, _, b) => some b
  | .exn _ => none

/-- The cache state a gathering node run left behind. -/
def result_cache {α : Type} :
    PyOutcome (PState × CacheState α × Bool) → Option (CacheState α)
  | .ok (_, c, _) => some c
  | .exn _ => none

/-- The state update a gathering node run produced. -/
def result_state {α : Type} :
    PyOutcome (PState × CacheState α × Bool) → Option PState
  | .ok (s, _, _) => some s
  | .exn _ => none

/-- The concrete scenario request of the spec. -/
def beijing_request : TripRequest :=
  { city := "Beijing", start_date := "2025-06-01", end_date := "2025-06-03"
    travel_days := 3, transportation := "public_transit"
    accommodation := "budget_hotel", preferences := ["history", "food"] }

/-- The same request with the out-of-range day count 31. -/
def beijing_request_31 : TripRequest := { beijing_request with travel_days := 31 }

def sample_attraction : Attraction :=
  { name := "故宫", address := "北京市东城区", location := { longitude := 0, latitude := 0 }
    visit_duration := 120, description := "", ticket_price := some 60
    category := some "景点", poi_id := some "B000A" }

def cacheA0 : CacheState (List Attraction) := { entries := [], enabled := true }
def cacheW0 : CacheState (List WeatherInfo) := { entries := [], enabled := true }
def cacheH0 : CacheState (List Hotel) := { entries := [], enabled := true }

def no_plan_jloads : String → Option RawPlan := fun _ => none
def timeout_llm : String → PyOutcome String := fun _ => .exn "APITimeoutError"

/-- A run environment with empty caches, a failing weather provider, a
successful attractions provider and a lodging provider with no results. -/
def sample_env : GraphEnv :=
  { cacheA := cacheA0, provA := .ok [sample_attraction], tA := 12, nowA := 0
    cacheW := cacheW0, provW := .exn "AmapServiceError: 天气查询失败", tW := 9, nowW := 0
    cacheH := cacheH0, provH := .ok [], tH := 7, nowH := 0
    jloads := no_plan_jloads, llm := timeout_llm, tP := 30, execMs := 70 }

/-- Fresh state for the Beijing request. -/
def gather_state : PState := create_initial_state "user-1" beijing_request

def all_completed_status : List (String × String) :=
  [("search_attractions", "completed"), ("query_weather", "completed"),
   ("search_hotels", "completed")]

def weather_failed_status : List (String × String) :=
  [("search_attractions", "completed"), ("query_weather", "failed"),
   ("search_hotels", "completed")]

/-- A state at the synthesis step: gate satisfied, attractions empty. -/
def ready_empty_state : PState :=
  { gather_state with node_status := all_completed_status }

/-- A state at the synthesis step: attractions gathered, weather failed. -/
def weather_failed_state : PState :=
  { gather_state with
      node_status := weather_failed_status
      attractions := [sample_attraction]
      weather := some [] }

/-- First call of the attractions step on an empty cache with a provider
returning zero results. -/
def c8_first : PyOutcome (PState × CacheState (List Attraction) × Bool) :=
  attraction_node cacheA0 (.ok []) gather_state 12 0

/-- The cache left behind by `c8_first` (it now holds the empty list). -/
def c8_cache1 : CacheState (List Attraction) :=
  (result_cache c8_first).getD cacheA0

/-- Second, identical call of the attractions step against that cache. -/
def c8_second : PyOutcome (PState × CacheState (List Attraction) × Bool) :=
  attraction_node c8_cache1 (.ok []) gather_state 15 60

/-- An engine response with no fenced block whose whole text is a JSON
object. -/
def c9_content : String := "\x7b\"city\": \"Beijing\"\x7d"

def c9_raw : RawPlan :=
  { city := some "Beijing", days := some [], budget := none
    overall_suggestions := none }

/-- A JSON decoder oracle that accepts exactly `c9_content`. -/
def c9_jloads : String → Option RawPlan :=
  fun s => if s = c9_content then some c9_raw else none

/-- An engine response carrying a fenced `json` block. -/
def c9_fenced : String := "plan: ```json\n\x7b\x7d\n``` done"

/-- `sample_env` with a different timing sample (used to show that a
rejected request never consults the run environment). -/
def sample_env2 : GraphEnv := { sample_env with tA := 99 }

/-! ## Helper lemmas -/

theorem dlookup_dinsert {β : Type} (d : List (String × β)) (k : String) (v : β) :
    dlookup (dinsert d k v) k = some v := by
  simp [dinsert, dlookup]

theorem dlookup_derase_ne {β : Type} (d : List (String × β)) (k k' : String)
    (h : k ≠ k') :
    dlookup (derase d k) k' = dlookup d k' := by
  induction d with
  | nil => rfl
  | cons p t ih =>
    cases p with
    | mk a b =>
      by_cases hp : a = k
      · subst hp
        simp [derase, dlookup, h, ih]
      · simp [derase, dlookup, hp, ih]

theorem dlookup_dinsert_ne {β : Type} (d : List (String × β)) (k k' : String)
    (v : β) (h : k ≠ k') :
    dlookup (dinsert d k v) k' = dlookup d k' := by
  simp [dinsert, dlookup, h, dlookup_derase_ne _ _ _ h]

theorem sum_map_eq_const {α : Type} (l : List α) (f : α → Int) (c : Int)
    (h : ∀ a ∈ l, f a = c) : (l.map f).sum = l.length * c := by
  induction l with
  | nil => simp
  | cons a t ih =>
    have ha := h a (by simp)
    have ht := ih (fun b hb => h b (by simp [hb]))
    simp [ha, ht]
    ring

theorem leadMatch_append_left (a b l : List Char)
    (h : leadMatch (a ++ b) l = true) : leadMatch a l = true := by
  induction a generalizing l with
  | nil => rfl
  | cons c t ih =>
    cases l with
    | nil => simp [leadMatch] at h
    | cons c' l' =>
      simp only [List.cons_append, leadMatch, Bool.and_eq_true] at h ⊢
      exact ⟨h.1, ih _ h.2⟩

theorem hasSub_append_left (l a b : List Char)
    (h : hasSub l (a ++ b) = true) : hasSub l a = true := by
  induction l with
  | nil =>
    simp only [hasSub, List.isEmpty_eq_true, List.append_eq_nil] at h
    simp [hasSub, h.1]
  | cons c t ih =>
    simp only [hasSub, Bool.or_eq_true] at h ⊢
    rcases h with h | h
    · exact Or.inl (leadMatch_append_left _ _ _ h)
    · exact Or.inr (ih h)

theorem str_contains_fence_of_json (s : String)
    (h : str_contains s "```json" = true) : str_contains s "```" = true := by
  have hd : ("```json").data = ("```").data ++ ("json").data := by decide
  unfold str_contains at h ⊢
  rw [hd] at h
  exact hasSub_append_left _ _ _ h

/-! ## Claim theorems -/

/-- C1: the claim says every run for a request with day count in [1, 30] and
a valid date range terminates with a non-null itinerary.  The code disagrees:
`plan_trip` passes the keyword `trace_id` to `create_initial_state`, whose
signature is `(user_id, request)`, so every run raises `TypeError` before the
graph is invoked and the caller receives no itinerary (and even past that
call, the gate call inside `planner_node` raises as well). -/
theorem plan_trip_raises_on_every_valid_request (g : GraphEnv)
    (request : TripRequest) (uid : Option String) (zs ze : Int)
    (_h1 : 1 ≤ request.travel_days) (_h2 : request.travel_days ≤ 30)
    (_hs : parse_ymd request.start_date = some zs)
    (_he : parse_ymd request.end_date = some ze) (_hrange : zs ≤ ze) :
    plan_trip g request uid = Except.error init_state_kw_error := by
  have hkw : kwcall_ok plan_trip_initial_state_kwargs create_initial_state_params
      = false := by decide
  simp [plan_trip, hkw]

/-- C1 witness: the Beijing 3-day request is valid yet the run errors. -/
theorem plan_trip_raises_witness :
    plan_trip sample_env beijing_request (some "user-1")
      = Except.error init_state_kw_error :=
  plan_trip_raises_on_every_valid_request sample_env beijing_request
    (some "user-1") 20240 20242 (by decide) (by decide) (by decide) (by decide)
    (by decide)

/-- C2: the claim says a run whose attractions step completed and whose
weather step failed still runs synthesis to completion and produces an
itinerary.  The code disagrees: the gathering stage does leave the expected
state (attractions completed and populated, weather failed with the empty
list recorded), but `planner_node` then raises `TypeError` at its gate call,
so the run aborts with no itinerary. -/
theorem weather_failure_blocks_synthesis (g : GraphEnv) (request : TripRequest)
    (uid : String) (la : List Attraction) (lh : List Hotel) (e : String)
    (hA : cache_get g.cacheA (attractions_cache_key request) = none)
    (hpA : g.provA = .ok la) (_hla : la ≠ [])
    (hW : cache_get g.cacheW (weather_cache_key request) = none)
    (hpW : g.provW = .exn e)
    (hH : cache_get g.cacheH (hotels_cache_key request) = none)
    (hpH : g.provH = .ok lh) :
    ∃ s3, run_gather g (create_initial_state uid request) = .ok s3
      ∧ s3.attractions = la
      ∧ dlookup s3.node_status "search_attractions" = some "completed"
      ∧ s3.weather = some []
      ∧ dlookup s3.node_status "query_weather" = some "failed"
      ∧ dlookup s3.node_errors "query_weather" = some e
      ∧ planner_node g.jloads g.llm s3 g.tP = (.exn gate_arity_error, false)
      ∧ run_graph g (create_initial_state uid request) = .exn gate_arity_error := by
  have h3 : run_gather g (create_initial_state uid request) = .ok
      { request := some request, user_id := some uid, attractions := la
        weather := some [], hotels := lh
        node_status := dinsert (dinsert (dinsert [] "search_attractions" "completed")
          "query_weather" "failed") "search_hotels" "completed"
        node_errors := dinsert [] "query_weather" e
        trip_plan := none, error := none, fallback_activated := false
        execution_time_ms := none, trace_id := none
        node_timings := dinsert (dinsert (dinsert [] "search_attractions" g.tA)
          "query_weather" g.tW) "search_hotels" g.tH } := by
    simp [run_gather, attraction_node, weather_node, hotel_node,
      create_initial_state, hA, hpA, hW, hpW, hH, hpH]
  refine ⟨_, h3, rfl, by simp [dinsert, derase, dlookup], rfl,
    by simp [dinsert, derase, dlookup], by simp [dlookup_dinsert], ?_, ?_⟩
  · simp [planner_node, planner_gate_call_args, planner_gate_required_params]
  · simp [run_graph, h3, planner_node, planner_gate_call_args,
      planner_gate_required_params]

/-- C2 witness: the sample environment (weather provider failing, attractions
provider succeeding) exhibits the aborted run. -/
theorem weather_failure_blocks_synthesis_witness :
    ∃ s3, run_gather sample_env (create_initial_state "user-1" beijing_request)
        = .ok s3
      ∧ s3.attractions = [sample_attraction]
      ∧ dlookup s3.node_status "search_attractions" = some "completed"
      ∧ s3.weather = some []
      ∧ dlookup s3.node_status "query_weather" = some "failed"
      ∧ dlookup s3.node_errors "query_weather"
          = some "AmapServiceError: 天气查询失败"
      ∧ planner_node sample_env.jloads sample_env.llm s3 sample_env.tP
          = (.exn gate_arity_error, false)
      ∧ run_graph sample_env (create_initial_state "user-1" beijing_request)
          = .exn gate_arity_error :=
  weather_failure_blocks_synthesis sample_env beijing_request "user-1"
    [sample_attraction] [] "AmapServiceError: 天气查询失败" (by decide)
    (by decide) (by decide) (by decide) (by decide) (by decide) (by decide)

/-- C3 counterexample: a state whose required steps all reached a terminal
state (weather `failed`, the others `completed`) on which the gate
nevertheless reports not-ready — refuting the claim that the gate returns
true exactly on terminal states. -/
theorem gate_terminal_state_counterexample :
    is_all_parallel_nodes_completed weather_failed_status parallel_node_names
      = false
    ∧ ∀ n ∈ parallel_node_names,
        dlookup weather_failed_status n = some "completed"
        ∨ dlookup weather_failed_status n = some "failed" := by
  decide

/-- C3 amended: the completion gate returns true for a state exactly when
every required step has status `completed`; a `failed` step makes it report
not-ready. -/
theorem gate_completed_only_characterization (node_status : List (String × String))
    (nodes : List String) :
    is_all_parallel_nodes_completed node_status nodes = true ↔
      ∀ n ∈ nodes, dlookup node_status n = some "completed" := by
  simp [is_all_parallel_nodes_completed, List.all_eq_true]

/-- C4: the claim says a ready state with an empty attractions list makes the
synthesis step return the deterministic fallback itinerary with
`fallback_activated` set and status `completed`, never invoking the engine.
The code disagrees: `planner_node` raises `TypeError` at its gate call before
the empty-attractions branch can run, so it returns no itinerary at all (the
engine is indeed not invoked). -/
theorem planner_ready_empty_attractions_raises (jloads : String → Option RawPlan)
    (llm : String → PyOutcome String) (state : PState) (request : TripRequest)
    (elapsed : Int) (hreq : state.request = some request)
    (_hready : is_all_parallel_nodes_completed state.node_status
      parallel_node_names = true)
    (_hempty : state.attractions = []) :
    planner_node jloads llm state elapsed = (.exn gate_arity_error, false) := by
  simp [planner_node, hreq, planner_gate_call_args, planner_gate_required_params]

/-- C4 witness: the concrete ready state with empty attractions. -/
theorem planner_ready_empty_attractions_witness :
    ready_empty_state.request = some beijing_request
    ∧ is_all_parallel_nodes_completed ready_empty_state.node_status
        parallel_node_names = true
    ∧ ready_empty_state.attractions = []
    ∧ planner_node no_plan_jloads timeout_llm ready_empty_state 30
        = (.exn gate_arity_error, false) :=
  ⟨rfl, by decide, rfl,
   planner_ready_empty_attractions_raises no_plan_jloads timeout_llm
     ready_empty_state beijing_request 30 rfl (by decide) rfl⟩


/-- C5: the fallback generator aggregates, for every day count d in [1, 30],
an attractions subtotal of 50·2·d, a lodging subtotal of 400·d, a meal
subtotal of 190·d (meals priced 30, 60, 100 per day), a fixed transport
subtotal of 100, and a grand total equal to the sum of the four; each day
plan carries exactly two placeholder attractions. -/
theorem fallback_budget_subtotals (request : TripRequest) (z : Int)
    (h1 : 1 ≤ request.travel_days) (_h2 : request.travel_days ≤ 30)
    (hdate : parse_ymd request.start_date = some z) :
    ∃ tp, create_fallback_plan request = some tp
      ∧ tp.budget.total_attractions = 50 * 2 * request.travel_days
      ∧ tp.budget.total_hotels = 400 * request.travel_days
      ∧ tp.budget.total_meals = 190 * request.travel_days
      ∧ tp.budget.total_transportation = 100
      ∧ tp.budget.total = tp.budget.total_attractions + tp.budget.total_hotels
          + tp.budget.total_meals + tp.budget.total_transportation
      ∧ tp.days.length = request.travel_days.toNat
      ∧ ∀ d ∈ tp.days, d.attractions.length = 2
          ∧ d.meals.map Meal.estimated_cost = [30, 60, 100] := by
  have hattr : ∀ i : Nat,
      ((fallback_day request z i).attractions.length : Int) * 50 = 100 := by
    intro i; simp [fallback_day]
  have hmeal : ∀ i : Nat,
      ((fallback_day request z i).meals.map Meal.estimated_cost).sum = 190 := by
    intro i; simp [fallback_day]
  have hcast : ((request.travel_days.toNat : Int)) = request.travel_days :=
    Int.toNat_of_nonneg (by omega)
  have hsum1 : (List.map (fun d => ((d.attractions.length : Int)) * 50)
      (List.map (fallback_day request z) (List.range request.travel_days.toNat))).sum
      = 50 * 2 * request.travel_days := by
    rw [List.map_map,
      sum_map_eq_const (List.range request.travel_days.toNat)
        ((fun d => ((d.attractions.length : Int)) * 50) ∘ fallback_day request z)
        100 (fun i _ => by simpa [Function.comp] using hattr i)]
    simp only [List.length_range]
    rw [hcast]; ring
  have hsum2 : (List.map (fun d => (d.meals.map Meal.estimated_cost).sum)
      (List.map (fallback_day request z) (List.range request.travel_days.toNat))).sum
      = 190 * request.travel_days := by
    rw [List.map_map,
      sum_map_eq_const (List.range request.travel_days.toNat)
        ((fun d => (d.meals.map Meal.estimated_cost).sum) ∘ fallback_day request z)
        190 (fun i _ => by simpa [Function.comp] using hmeal i)]
    simp only [List.length_range]
    rw [hcast]; ring
  simp only [create_fallback_plan, hdate]
  refine ⟨_, rfl, hsum1, rfl, hsum2, rfl, rfl, by simp, ?_⟩
  intro d hd
  obtain ⟨i, _, rfl⟩ := List.mem_map.1 hd
  exact ⟨by simp [fallback_day], by simp [fallback_day]⟩

/-- C5 witness: the Beijing request yields 3 day plans of 2 placeholder
attractions each and the subtotals 300 / 1200 / 570 / 100 with total 2170. -/
theorem fallback_budget_subtotals_witness :
    (∃ tp, create_fallback_plan beijing_request = some tp
      ∧ tp.budget.total_attractions = 50 * 2 * beijing_request.travel_days
      ∧ tp.budget.total_hotels = 400 * beijing_request.travel_days
      ∧ tp.budget.total_meals = 190 * beijing_request.travel_days
      ∧ tp.budget.total_transportation = 100
      ∧ tp.budget.total = tp.budget.total_attractions + tp.budget.total_hotels
          + tp.budget.total_meals + tp.budget.total_transportation
      ∧ tp.days.length = beijing_request.travel_days.toNat
      ∧ ∀ d ∈ tp.days, d.attractions.length = 2
          ∧ d.meals.map Meal.estimated_cost = [30, 60, 100])
    ∧ (create_fallback_plan beijing_request).map (fun tp =>
        (tp.budget.total_attractions, tp.budget.total_hotels,
         tp.budget.total_meals, tp.budget.total_transportation,
         tp.budget.total, tp.days.length))
        = some (300, 1200, 570, 100, 2170, 3) :=
  ⟨fallback_budget_subtotals beijing_request 20240 (by decide) (by decide)
     (by decide),
   by decide⟩

/-- C6: each data-gathering step never raises (given the state carries a
request), records its elapsed time on every branch, and converts a provider
or parsing exception on the executed path into status `failed`, an empty
result list and the recorded error text.  (The cache service catches
internally, so cache lookup and cache write cannot themselves throw.) -/
theorem gather_steps_fault_isolated
    (cA : CacheState (List Attraction)) (pA : PyOutcome (List Attraction))
    (cW : CacheState (List WeatherInfo)) (pW : PyOutcome (List WeatherInfo))
    (cH : CacheState (List Hotel)) (pH : PyOutcome (List Hotel))
    (state : PState) (request : TripRequest) (tA nA tW nW tH nH : Int)
    (hreq : state.request = some request) :
    ((∀ m, attraction_node cA pA state tA nA ≠ .exn m)
      ∧ (result_state (attraction_node cA pA state tA nA)).map
          (fun s => dlookup s.node_timings "search_attractions") = some (some tA)
      ∧ ∀ e, pA = .exn e →
          (cache_get cA (attractions_cache_key request)).getD [] = [] →
          (result_state (attraction_node cA pA state tA nA)).map
              (fun s => (s.attractions,
                dlookup s.node_status "search_attractions",
                dlookup s.node_errors "search_attractions"))
            = some ([], some "failed", some e))
    ∧ ((∀ m, weather_node cW pW state tW nW ≠ .exn m)
      ∧ (result_state (weather_node cW pW state tW nW)).map
          (fun s => dlookup s.node_timings "query_weather") = some (some tW)
      ∧ ∀ e, pW = .exn e →
          (cache_get cW (weather_cache_key request)).getD [] = [] →
          (result_state (weather_node cW pW state tW nW)).map
              (fun s => (s.weather,
                dlookup s.node_status "query_weather",
                dlookup s.node_errors "query_weather"))
            = some (some [], some "failed", some e))
    ∧ ((∀ m, hotel_node cH pH state tH nH ≠ .exn m)
      ∧ (result_state (hotel_node cH pH state tH nH)).map
          (fun s => dlookup s.node_timings "search_hotels") = some (some tH)
      ∧ ∀ e, pH = .exn e →
          (cache_get cH (hotels_cache_key request)).getD [] = [] →
          (result_state (hotel_node cH pH state tH nH)).map
              (fun s => (s.hotels,
                dlookup s.node_status "search_hotels",
                dlookup s.node_errors "search_hotels"))
            = some ([], some "failed", some e)) := by
  refine ⟨?_, ?_, ?_⟩
  · rcases hc : cache_get cA (attractions_cache_key request) with _ | l
    · cases pA with
      | ok l' =>
        refine ⟨?_, ?_, ?_⟩
        · intro m h; simp [attraction_node, hreq, hc] at h
        · simp [attraction_node, hreq, hc, result_state, dlookup_dinsert]
        · intro e he _; simp at he
      | exn e0 =>
        refine ⟨?_, ?_, ?_⟩
        · intro m h; simp [attraction_node, hreq, hc] at h
        · simp [attraction_node, hreq, hc, result_state, dlookup_dinsert]
        · intro e he _
          have he' : e0 = e := by simpa using he
          subst he'
          simp [attraction_node, hreq, hc, result_state, dlookup_dinsert,
            dlookup_dinsert_ne]
    · by_cases hl : l.isEmpty
      · cases pA with
        | ok l' =>
          refine ⟨?_, ?_, ?_⟩
          · intro m h; simp [attraction_node, hreq, hc, hl] at h
          · simp [attraction_node, hreq, hc, hl, result_state, dlookup_dinsert]
          · intro e he _; simp at he
        | exn e0 =>
          refine ⟨?_, ?_, ?_⟩
          · intro m h; simp [attraction_node, hreq, hc, hl] at h
          · simp [attraction_node, hreq, hc, hl, result_state, dlookup_dinsert]
          · intro e he _
            have he' : e0 = e := by simpa using he
            subst he'
            simp [attraction_node, hreq, hc, hl, result_state, dlookup_dinsert,
              dlookup_dinsert_ne]
      · refine ⟨?_, ?_, ?_⟩
        · intro m h; simp [attraction_node, hreq, hc, hl] at h
        · simp [attraction_node, hreq, hc, hl, result_state, dlookup_dinsert]
        · intro e _ hf
          exfalso
          simp at hf
          simp [hf] at hl
  · rcases hc : cache_get cW (weather_cache_key request) with _ | l
    · cases pW with
      | ok l' =>
        refine ⟨?_, ?_, ?_⟩
        · intro m h; simp [weather_node, hreq, hc] at h
        · simp [weather_node, hreq, hc, result_state, dlookup_dinsert]
        · intro e he _; simp at he
      | exn e0 =>
        refine ⟨?_, ?_, ?_⟩
        · intro m h; simp [weather_node, hreq, hc] at h
        · simp [weather_node, hreq, hc, result_state, dlookup_dinsert]
        · intro e he _
          have he' : e0 = e := by simpa using he
          subst he'
          simp [weather_node, hreq, hc, result_state, dlookup_dinsert,
            dlookup_dinsert_ne]
    · by_cases hl : l.isEmpty
      · cases pW with
        | ok l' =>
          refine ⟨?_, ?_, ?_⟩
          · intro m h; simp [weather_node, hreq, hc, hl] at h
          · simp [weather_node, hreq, hc, hl, result_state, dlookup_dinsert]
          · intro e he _; simp at he
        | exn e0 =>
          refine ⟨?_, ?_, ?_⟩
          · intro m h; simp [weather_node, hreq, hc, hl] at h
          · simp [weather_node, hreq, hc, hl, result_state, dlookup_dinsert]
          · intro e he _
            have he' : e0 = e := by simpa using he
            subst he'
            simp [weather_node, hreq, hc, hl, result_state, dlookup_dinsert,
              dlookup_dinsert_ne]
      · refine ⟨?_, ?_, ?_⟩
        · intro m h; simp [weather_node, hreq, hc, hl] at h
        · simp [weather_node, hreq, hc, hl, result_state, dlookup_dinsert]
        · intro e _ hf
          exfalso
          simp at hf
          simp [hf] at hl
  · rcases hc : cache_get cH (hotels_cache_key request) with _ | l
    · cases pH with
      | ok l' =>
        refine ⟨?_, ?_, ?_⟩
        · intro m h; simp [hotel_node, hreq, hc] at h
        · simp [hotel_node, hreq, hc, result_state, dlookup_dinsert]
        · intro e he _; simp at he
      | exn e0 =>
        refine ⟨?_, ?_, ?_⟩
        · intro m h; simp [hotel_node, hreq, hc] at h
        · simp [hotel_node, hreq, hc, result_state, dlookup_dinsert]
        · intro e he _
          have he' : e0 = e := by simpa using he
          subst he'
          simp [hotel_node, hreq, hc, result_state, dlookup_dinsert,
            dlookup_dinsert_ne]
    · by_cases hl : l.isEmpty
      · cases pH with
        | ok l' =>
          refine ⟨?_, ?_, ?_⟩
          · intro m h; simp [hotel_node, hreq, hc, hl] at h
          · simp [hotel_node, hreq, hc, hl, result_state, dlookup_dinsert]
          · intro e he _; simp at he
        | exn e0 =>
          refine ⟨?_, ?_, ?_⟩
          · intro m h; simp [hotel_node, hreq, hc, hl] at h
          · simp [hotel_node, hreq, hc, hl, result_state, dlookup_dinsert]
          · intro e he _
            have he' : e0 = e := by simpa using he
            subst he'
            simp [hotel_node, hreq, hc, hl, result_state, dlookup_dinsert,
              dlookup_dinsert_ne]
      · refine ⟨?_, ?_, ?_⟩
        · intro m h; simp [hotel_node, hreq, hc, hl] at h
        · simp [hotel_node, hreq, hc, hl, result_state, dlookup_dinsert]
        · intro e _ hf
          exfalso
          simp at hf
          simp [hf] at hl

/-- C6 witness: with every provider throwing on empty caches, all three steps
return `failed`, empty results and the error text. -/
theorem gather_steps_fault_isolated_witness :
    (result_state (attraction_node cacheA0 (.exn "ConnectionError")
        gather_state 3 0)).map
        (fun s => (s.attractions,
          dlookup s.node_status "search_attractions",
          dlookup s.node_errors "search_attractions"))
      = some ([], some "failed", some "ConnectionError")
    ∧ (result_state (weather_node cacheW0 (.exn "Timeout") gather_state 4 0)).map
        (fun s => (s.weather,
          dlookup s.node_status "query_weather",
          dlookup s.node_errors "query_weather"))
      = some (some [], some "failed", some "Timeout")
    ∧ (result_state (hotel_node cacheH0 (.exn "HTTPError") gather_state 5 0)).map
        (fun s => (s.hotels,
          dlookup s.node_status "search_hotels",
          dlookup s.node_errors "search_hotels"))
      = some ([], some "failed", some "HTTPError") :=
  ⟨(gather_steps_fault_isolated cacheA0 (.exn "ConnectionError") cacheW0
      (.exn "Timeout") cacheH0 (.exn "HTTPError") gather_state beijing_request
      3 0 4 0 5 0 rfl).1.2.2 "ConnectionError" rfl (by decide),
   (gather_steps_fault_isolated cacheA0 (.exn "ConnectionError") cacheW0
      (.exn "Timeout") cacheH0 (.exn "HTTPError") gather_state beijing_request
      3 0 4 0 5 0 rfl).2.1.2.2 "Timeout" rfl (by decide),
   (gather_steps_fault_isolated cacheA0 (.exn "ConnectionError") cacheW0
      (.exn "Timeout") cacheH0 (.exn "HTTPError") gather_state beijing_request
      3 0 4 0 5 0 rfl).2.2.2.2 "HTTPError" rfl (by decide)⟩


/-- C7: a request with day count outside [1, 30] is rejected with the HTTP
400 validation error before the service (and hence the graph) is consulted —
the outcome does not depend on the run environment — while an in-range day
count is never rejected at this check. -/
theorem api_day_count_validation (g g' : GraphEnv) (request : TripRequest)
    (uid : String) :
    ((request.travel_days < 1 ∨ 30 < request.travel_days) →
        api_plan_trip g request uid = .rejected400 day_range_error
        ∧ api_plan_trip g request uid = api_plan_trip g' request uid)
    ∧ (1 ≤ request.travel_days → request.travel_days ≤ 30 →
        ∀ d, api_plan_trip g request uid ≠ .rejected400 d) := by
  constructor
  · intro h
    have hb : (request.travel_days < 1 || request.travel_days > 30) = true := by
      rcases h with h | h <;> simp [h]
    constructor <;> simp [api_plan_trip, hb]
  · intro h1 h2 d
    have hb : (request.travel_days < 1 || request.travel_days > 30) = false := by
      simp
      omega
    simp [api_plan_trip, hb]
    cases hp : plan_trip g request (some uid) <;> simp

/-- C7 witness: `travel_days = 31` is rejected independently of the
environment; the valid Beijing request is not rejected at this check. -/
theorem api_day_count_validation_witness :
    api_plan_trip sample_env beijing_request_31 "user-1"
      = .rejected400 day_range_error
    ∧ api_plan_trip sample_env beijing_request_31 "user-1"
        = api_plan_trip sample_env2 beijing_request_31 "user-1"
    ∧ api_plan_trip sample_env beijing_request "user-1"
        ≠ .rejected400 day_range_error :=
  ⟨((api_day_count_validation sample_env sample_env2 beijing_request_31
      "user-1").1 (by decide)).1,
   ((api_day_count_validation sample_env sample_env2 beijing_request_31
      "user-1").1 (by decide)).2,
   (api_day_count_validation sample_env sample_env2 beijing_request
      "user-1").2 (by decide) (by decide) day_range_error⟩

/-- C8 counterexample: with an empty first result list the claim fails — the
list is written to the cache, but `if cached:` treats the cached empty list
as a miss, so an identical second call invokes the provider again (two
invocations, not at most one). -/
theorem cache_empty_result_reinvokes_provider :
    provider_invoked c8_first = some true
    ∧ dlookup c8_cache1.entries (attractions_cache_key beijing_request)
        = some ⟨[], 7200⟩
    ∧ provider_invoked c8_second = some true := by
  decide

/-- C8 amended: when the first call of a data-gathering step produced a
non-empty result list, a second call on identical request fields skips the
provider and returns the cached result; the TTLs written are 7200 s for
attractions and lodging and 1800 s for weather (recorded as
`expires = now + ttl`). -/
theorem cached_nonempty_second_call_uses_cache :
    (∀ (c : CacheState (List Attraction)) (l : List Attraction) (state : PState)
        (request : TripRequest) (t1 n1 t2 n2 : Int)
        (p2 : PyOutcome (List Attraction)),
      c.enabled = true → state.request = some request →
      cache_get c (attractions_cache_key request) = none → l ≠ [] →
      ∃ c1, attraction_node c (.ok l) state t1 n1 =
          .ok ({ state with
                 attractions := l
                 node_status := dinsert state.node_status "search_attractions" "completed"
                 node_timings := dinsert state.node_timings "search_attractions" t1 },
               c1, true)
        ∧ dlookup c1.entries (attractions_cache_key request) = some ⟨l, n1 + 7200⟩
        ∧ attraction_node c1 p2 state t2 n2 =
            .ok ({ state with
                   attractions := l
                   node_status := dinsert state.node_status "search_attractions" "completed"
                   node_timings := dinsert state.node_timings "search_attractions" t2 },
                 c1, false))
    ∧ (∀ (c : CacheState (List WeatherInfo)) (l : List WeatherInfo) (state : PState)
        (request : TripRequest) (t1 n1 t2 n2 : Int)
        (p2 : PyOutcome (List WeatherInfo)),
      c.enabled = true → state.request = some request →
      cache_get c (weather_cache_key request) = none → l ≠ [] →
      ∃ c1, weather_node c (.ok l) state t1 n1 =
          .ok ({ state with
                 weather := some l
                 node_status := dinsert state.node_status "query_weather" "completed"
                 node_timings := dinsert state.node_timings "query_weather" t1 },
               c1, true)
        ∧ dlookup c1.entries (weather_cache_key request) = some ⟨l, n1 + 1800⟩
        ∧ weather_node c1 p2 state t2 n2 =
            .ok ({ state with
                   weather := some l
                   node_status := dinsert state.node_status "query_weather" "completed"
                   node_timings := dinsert state.node_timings "query_weather" t2 },
                 c1, false))
    ∧ (∀ (c : CacheState (List Hotel)) (l : List Hotel) (state : PState)
        (request : TripRequest) (t1 n1 t2 n2 : Int)
        (p2 : PyOutcome (List Hotel)),
      c.enabled = true → state.request = some request →
      cache_get c (hotels_cache_key request) = none → l ≠ [] →
      ∃ c1, hotel_node c (.ok l) state t1 n1 =
          .ok ({ state with
                 hotels := l
                 node_status := dinsert state.node_status "search_hotels" "completed"
                 node_timings := dinsert state.node_timings "search_hotels" t1 },
               c1, true)
        ∧ dlookup c1.entries (hotels_cache_key request) = some ⟨l, n1 + 7200⟩
        ∧ hotel_node c1 p2 state t2 n2 =
            .ok ({ state with
                   hotels := l
                   node_status := dinsert state.node_status "search_hotels" "completed"
                   node_timings := dinsert state.node_timings "search_hotels" t2 },
                 c1, false)) := by
  refine ⟨?_, ?_, ?_⟩
  · intro c l state request t1 n1 t2 n2 p2 hen hreq hmiss hne
    have hne' : l.isEmpty = false := by
      cases l with
      | nil => exact absurd rfl hne
      | cons a t => rfl
    refine ⟨⟨dinsert c.entries (attractions_cache_key request) ⟨l, n1 + 7200⟩,
      c.enabled⟩, ?_, ?_, ?_⟩
    · simp [attraction_node, hreq, hmiss, cache_set, hen]
    · simp [dlookup_dinsert]
    · have hg : cache_get ⟨dinsert c.entries (attractions_cache_key request)
          ⟨l, n1 + 7200⟩, c.enabled⟩ (attractions_cache_key request) = some l := by
        simp [cache_get, hen, dlookup_dinsert]
      simp [attraction_node, hreq, hg, hne']
  · intro c l state request t1 n1 t2 n2 p2 hen hreq hmiss hne
    have hne' : l.isEmpty = false := by
      cases l with
      | nil => exact absurd rfl hne
      | cons a t => rfl
    refine ⟨⟨dinsert c.entries (weather_cache_key request) ⟨l, n1 + 1800⟩,
      c.enabled⟩, ?_, ?_, ?_⟩
    · simp [weather_node, hreq, hmiss, cache_set, hen]
    · simp [dlookup_dinsert]
    · have hg : cache_get ⟨dinsert c.entries (weather_cache_key request)
          ⟨l, n1 + 1800⟩, c.enabled⟩ (weather_cache_key request) = some l := by
        simp [cache_get, hen, dlookup_dinsert]
      simp [weather_node, hreq, hg, hne']
  · intro c l state request t1 n1 t2 n2 p2 hen hreq hmiss hne
    have hne' : l.isEmpty = false := by
      cases l with
      | nil => exact absurd rfl hne
      | cons a t => rfl
    refine ⟨⟨dinsert c.entries (hotels_cache_key request) ⟨l, n1 + 7200⟩,
      c.enabled⟩, ?_, ?_, ?_⟩
    · simp [hotel_node, hreq, hmiss, cache_set, hen]
    · simp [dlookup_dinsert]
    · have hg : cache_get ⟨dinsert c.entries (hotels_cache_key request)
          ⟨l, n1 + 7200⟩, c.enabled⟩ (hotels_cache_key request) = some l := by
        simp [cache_get, hen, dlookup_dinsert]
      simp [hotel_node, hreq, hg, hne']

/-- C8 witness: a non-empty first result makes the second call a cache hit
that skips the provider. -/
theorem cached_nonempty_second_call_witness :
    ∃ c1, attraction_node cacheA0 (.ok [sample_attraction]) gather_state 12 0 =
        .ok ({ gather_state with
               attractions := [sample_attraction]
               node_status := dinsert gather_state.node_status
                 "search_attractions" "completed"
               node_timings := dinsert gather_state.node_timings
                 "search_attractions" 12 },
             c1, true)
      ∧ dlookup c1.entries (attractions_cache_key beijing_request)
          = some ⟨[sample_attraction], 0 + 7200⟩
      ∧ attraction_node c1 (.ok []) gather_state 15 60 =
          .ok ({ gather_state with
                 attractions := [sample_attraction]
                 node_status := dinsert gather_state.node_status
                   "search_attractions" "completed"
                 node_timings := dinsert gather_state.node_timings
                   "search_attractions" 15 },
               c1, false) :=
  (cached_nonempty_second_call_uses_cache).1 cacheA0 [sample_attraction]
    gather_state beijing_request 12 0 15 60 (.ok []) rfl rfl (by decide)
    (by decide)

/-- C9: the synthesis response parser extracts the payload with the
precedence fenced-json block, then any fenced block, then the raw text; in
particular a response without any fence is handed verbatim to the JSON
decoder and its parse is used. -/
theorem planner_extraction_precedence (jloads : String → Option RawPlan)
    (request : TripRequest) (content : String) :
    (str_contains content "```json" = true →
      extract_json_str content
        = py_strip ((py_split ((py_split content "```json").getD 1 "") "```").getD 0 ""))
    ∧ (str_contains content "```json" = false → str_contains content "```" = true →
      extract_json_str content
        = py_strip ((py_split ((py_split content "```").getD 1 "") "```").getD 0 ""))
    ∧ (str_contains content "```" = false →
      str_contains content "```json" = false
      ∧ extract_json_str content = content
      ∧ parse_planner_response jloads content request
          = (jloads content).map (build_trip_plan request)) := by
  refine ⟨?_, ?_, ?_⟩
  · intro h
    simp [extract_json_str, h]
  · intro h1 h2
    simp [extract_json_str, h1, h2]
  · intro h
    have hj : str_contains content "```json" = false := by
      cases hjc : str_contains content "```json"
      · rfl
      · exact absurd (str_contains_fence_of_json content hjc) (by simp [h])
    refine ⟨hj, ?_, ?_⟩
    · simp [extract_json_str, hj, h]
    · simp [parse_planner_response, extract_json_str, hj, h]

/-- C9 witness: an unfenced JSON-object response is decoded as-is, and a
fenced response uses the fenced-json extraction. -/
theorem planner_extraction_precedence_witness :
    (str_contains c9_content "```" = false
      ∧ extract_json_str c9_content = c9_content
      ∧ parse_planner_response c9_jloads c9_content beijing_request
          = (c9_jloads c9_content).map (build_trip_plan beijing_request))
    ∧ extract_json_str c9_fenced
        = py_strip ((py_split ((py_split c9_fenced "```json").getD 1 "") "```").getD 0 "") :=
  ⟨⟨by decide,
    ((planner_extraction_precedence c9_jloads beijing_request c9_content).2.2
      (by decide)).2.1,
    ((planner_extraction_precedence c9_jloads beijing_request c9_content).2.2
      (by decide)).2.2⟩,
   (planner_extraction_precedence c9_jloads beijing_request c9_fenced).1
     (by decide)⟩

/-- C10: on the in-memory path, `set` records the value with expiry
`now + ttl`, and `get` returns the stored value while never consulting the
recorded expiry — the result is independent of the TTL and of the time of
writing, so in-memory entries never expire. -/
theorem memory_cache_never_expires {α : Type} (c : CacheState α) (key : String)
    (v : α) (ttl now ttl' now' : Int) (h : c.enabled = true) :
    dlookup (cache_set c key v ttl now).1.entries key = some ⟨v, now + ttl⟩
    ∧ cache_get (cache_set c key v ttl now).1 key = some v
    ∧ cache_get (cache_set c key v ttl now).1 key
        = cache_get (cache_set c key v ttl' now').1 key := by
  simp [cache_get, cache_set, h, dlookup_dinsert]

/-- C10 witness: a stored attraction list is returned unchanged whatever the
TTL and write time were. -/
theorem memory_cache_never_expires_witness :
    dlookup (cache_set cacheA0 "k" [sample_attraction] 7200 100).1.entries "k"
      = some ⟨[sample_attraction], 100 + 7200⟩
    ∧ cache_get (cache_set cacheA0 "k" [sample_attraction] 7200 100).1 "k"
        = some [sample_attraction]
    ∧ cache_get (cache_set cacheA0 "k" [sample_attraction] 7200 100).1 "k"
        = cache_get (cache_set cacheA0 "k" [sample_attraction] 1 999999).1 "k" :=
  memory_cache_never_expires cacheA0 "k" [sample_attraction] 7200 100 1 999999 rfl

end Trip
